import Mathlib

/-!
Verification of the sentiment-dashboard analyzer core.

Shallow embedding of the routing / response-contract layer of the
repository (backend/app/services): `analyzer_contract.py`,
`content_moderator.py`, `hybrid_analyzer.py`, `openai_analyzer.py`
and the router in `sentiment_analyzer.py`.

Modelling conventions:
* Python floats are modelled as exact rationals (`ℚ`).  `round(x, 3)` is
  modelled as `round3` below using Mathlib's `round` (round half towards
  +∞, while Python uses round-half-to-even); no value appearing in any
  statement below sits on a rounding tie, and the tolerance bounds proved
  here hold for every tie-breaking rule, so the difference is immaterial.
* The third-party scoring engines (the VADER lexicon, TextBlob polarity,
  and the remote GPT call) are opaque external primitives; they enter the
  model as explicit function parameters (oracles).
* Python `re` pattern matching is embedded via a small regular-expression
  AST (`Regex`) and a fuel-indexed backtracking matcher.  Only the
  constructs actually used by the repository's patterns are supported:
  literals, character classes, `.`, `\s`, alternation, grouping,
  `* + ?`, word boundaries `\b` and negative lookahead `(?!...)`.
-/

namespace SentimentDashboard

/-- Python's `round(x, 3)`: round to 3 decimal places. -/
def round3 (q : ℚ) : ℚ := ((round (1000 * q) : ℤ) : ℚ) / 1000

/-- `round` is monotone (needed to bound `round3` on intervals). -/
theorem round_mono {x y : ℚ} (h : x ≤ y) : round x ≤ round y := by
  rw [round_eq, round_eq]
  exact Int.floor_mono (by linarith)

/-- `round3` never moves a value by more than half of a thousandth. -/
theorem abs_round3_sub (q : ℚ) : |round3 q - q| ≤ 1 / 2000 := by
  have h := abs_sub_round (1000 * q)
  rw [round3]
  rw [show ((round (1000 * q) : ℤ) : ℚ) / 1000 - q
        = (((round (1000 * q) : ℤ) : ℚ) - 1000 * q) / 1000 by ring]
  rw [abs_div]
  rw [show |(1000 : ℚ)| = 1000 by norm_num]
  rw [div_le_iff₀ (by norm_num : (0:ℚ) < 1000)]
  rw [abs_sub_comm]
  linarith

/-- `round3` is idempotent. -/
theorem round3_idem (q : ℚ) : round3 (round3 q) = round3 q := by
  unfold round3
  have : (1000 : ℚ) * (((round (1000 * q) : ℤ) : ℚ) / 1000)
      = ((round (1000 * q) : ℤ) : ℚ) := by ring
  rw [this, round_intCast]

/-- `round3` of a value in `[0, 1]` stays in `[0, 1]`. -/
theorem round3_mem_unit {q : ℚ} (h0 : 0 ≤ q) (h1 : q ≤ 1) :
    0 ≤ round3 q ∧ round3 q ≤ 1 := by
  have hlo : (0 : ℤ) ≤ round (1000 * q) := by
    have := round_mono (x := 0) (y := 1000 * q) (by linarith)
    simpa using this
  have hhi : round (1000 * q) ≤ 1000 := by
    have := round_mono (x := 1000 * q) (y := 1000) (by linarith)
    simpa using this
  constructor
  · unfold round3
    positivity
  · unfold round3
    rw [div_le_one (by norm_num)]
    exact_mod_cast hhi

/-- `round3` of a value in `[-1, 1]` stays in `[-1, 1]`. -/
theorem round3_mem_sym {q : ℚ} (h0 : -1 ≤ q) (h1 : q ≤ 1) :
    -1 ≤ round3 q ∧ round3 q ≤ 1 := by
  have hlo : (-1000 : ℤ) ≤ round (1000 * q) := by
    rw [round_eq, Int.le_floor]
    push_cast
    linarith
  have hhi : round (1000 * q) ≤ 1000 := by
    have := round_mono (x := 1000 * q) (y := 1000) (by linarith)
    simpa using this
  constructor
  · unfold round3
    rw [le_div_iff₀ (by norm_num : (0:ℚ) < 1000)]
    exact_mod_cast hlo
  · unfold round3
    rw [div_le_one (by norm_num)]
    exact_mod_cast hhi

/-- If three rationals sum exactly to 1, their `round3` images sum to
within `±0.001` of 1 (the three per-component errors total an integer
number of thousandths of magnitude at most `1.5`, hence at most `1`). -/
theorem round3_sum_near_one {x y z : ℚ} (h : x + y + z = 1) :
    |round3 x + round3 y + round3 z - 1| ≤ 1 / 1000 := by
  have hx := abs_sub_round (1000 * x)
  have hy := abs_sub_round (1000 * y)
  have hz := abs_sub_round (1000 * z)
  set a : ℤ := round (1000 * x) with ha
  set b : ℤ := round (1000 * y) with hb
  set c : ℤ := round (1000 * z) with hc
  have hsum : ((a + b + c - 1000 : ℤ) : ℚ)
      = ((a : ℚ) - 1000 * x) + ((b : ℚ) - 1000 * y) + ((c : ℚ) - 1000 * z) := by
    push_cast
    linarith [h]
  have habs : |((a + b + c - 1000 : ℤ) : ℚ)| ≤ 3 / 2 := by
    rw [hsum]
    calc |((a : ℚ) - 1000 * x) + ((b : ℚ) - 1000 * y) + ((c : ℚ) - 1000 * z)|
        ≤ |(a : ℚ) - 1000 * x| + |(b : ℚ) - 1000 * y| + |(c : ℚ) - 1000 * z| :=
          abs_add_three _ _ _
      _ ≤ 1 / 2 + 1 / 2 + 1 / 2 := by
          gcongr
          · simpa [ha, abs_sub_comm] using hx
          · simpa [hb, abs_sub_comm] using hy
          · simpa [hc, abs_sub_comm] using hz
      _ = 3 / 2 := by norm_num
  have hint : |a + b + c - 1000| ≤ 1 := by
    by_contra hcon
    push_neg at hcon
    have h2 : (2 : ℤ) ≤ |a + b + c - 1000| := hcon
    have : (2 : ℚ) ≤ |((a + b + c - 1000 : ℤ) : ℚ)| := by
      rw [← Int.cast_abs]
      exact_mod_cast h2
    linarith
  have hgoal : round3 x + round3 y + round3 z - 1
      = ((a + b + c - 1000 : ℤ) : ℚ) / 1000 := by
    unfold round3
    rw [← ha, ← hb, ← hc]
    push_cast
    ring
  rw [hgoal, abs_div]
  rw [show |(1000 : ℚ)| = 1000 by norm_num]
  rw [div_le_div_iff_of_pos_right (by norm_num : (0:ℚ) < 1000)]
  rw [← Int.cast_abs]
  have : ((|a + b + c - 1000| : ℤ) : ℚ) ≤ 1 := by exact_mod_cast hint
  linarith

/-! ## A small regular-expression engine

Embeds the subset of Python `re` used by `content_moderator.py` and
`hybrid_analyzer.py`.  Both modules search lowercase text, so the
`re.IGNORECASE` flag they pass is modelled by writing every literal in
lowercase.  Matching is by a continuation-passing backtracking matcher
indexed by fuel; fuel only ever runs out on texts far longer than the
fuel budget chosen in `searchR`, never on the concrete inputs used here,
and no theorem below reasons about the matcher generically. -/

/-- Regular-expression AST (the constructs used by the repository). -/
inductive Regex where
  | eps : Regex
  | dot : Regex
  | lit (c : Char) : Regex
  | cls (cs : List Char) : Regex
  | ws : Regex
  | seq (a b : Regex) : Regex
  | alt (a b : Regex) : Regex
  | star (a : Regex) : Regex
  | plus (a : Regex) : Regex
  | opt (a : Regex) : Regex
  | wordB : Regex
  | lookNeg (a : Regex) : Regex
deriving Repr

/-- Python's `\w` on the texts at hand (ASCII letters, digits, `_`). -/
def isWordChar (c : Char) : Bool := c.isAlphanum || c = '_'

/-- Is there a word boundary between `prev` (the character just before
the current position, if any) and the next character of `s`? -/
def atBoundary (prev : Option Char) (s : List Char) : Bool :=
  let before := match prev with
    | some c => isWordChar c
    | none => false
  let after := match s with
    | c :: _ => isWordChar c
    | [] => false
  before != after

/-- Backtracking matcher.  `mre fuel r prev s k` tries to match `r` at
the start of `s` (with `prev` the preceding character for `\b`), calling
the continuation `k` on every suffix where `r` can end. -/
def mre : Nat → Regex → Option Char → List Char →
    (Option Char → List Char → Bool) → Bool
  | 0, _, _, _, _ => false
  | _ + 1, .eps, prev, s, k => k prev s
  | _ + 1, .dot, _, s, k =>
      match s with
      | [] => false
      | c :: rest => k (some c) rest
  | _ + 1, .lit c, _, s, k =>
      match s with
      | [] => false
      | d :: rest => c == d && k (some d) rest
  | _ + 1, .cls cs, _, s, k =>
      match s with
      | [] => false
      | d :: rest => cs.contains d && k (some d) rest
  | _ + 1, .ws, _, s, k =>
      match s with
      | [] => false
      | d :: rest => d.isWhitespace && k (some d) rest
  | fuel + 1, .seq a b, prev, s, k =>
      mre fuel a prev s (fun p' s' => mre fuel b p' s' k)
  | fuel + 1, .alt a b, prev, s, k =>
      mre fuel a prev s k || mre fuel b prev s k
  | fuel + 1, .star a, prev, s, k =>
      k prev s || mre fuel a prev s (fun p' s' => mre fuel (.star a) p' s' k)
  | fuel + 1, .plus a, prev, s, k =>
      mre fuel a prev s (fun p' s' => mre fuel (.star a) p' s' k)
  | fuel + 1, .opt a, prev, s, k =>
      k prev s || mre fuel a prev s k
  | _ + 1, .wordB, prev, s, k => atBoundary prev s && k prev s
  | fuel + 1, .lookNeg a, prev, s, k =>
      !(mre fuel a prev s (fun _ _ => true)) && k prev s

/-- Does `r` match starting exactly at this position? -/
def matchesAt (fuel : Nat) (r : Regex) (prev : Option Char)
    (s : List Char) : Bool :=
  mre fuel r prev s (fun _ _ => true)

/-- `re.search`: try to match `r` at every position of `s`. -/
def searchFrom (fuel : Nat) (r : Regex) : Option Char → List Char → Bool
  | prev, s =>
      matchesAt fuel r prev s ||
        match s with
        | [] => false
        | c :: rest => searchFrom fuel r (some c) rest

/-- `re.search(r, text)` as a Boolean (match found somewhere or not). -/
def searchR (r : Regex) (text : String) : Bool :=
  searchFrom ((text.length + 2) * 200) r none text.data

/-- Sequence a list of regexes. -/
def rcat (rs : List Regex) : Regex := rs.foldr Regex.seq .eps

/-- Alternation over a list of regexes (`(a|b|c)`); `(|)` never occurs. -/
def ralt (rs : List Regex) : Regex :=
  match rs with
  | [] => .eps
  | [r] => r
  | r :: rest => .alt r (ralt rest)

/-- A literal string, one `lit` per character. -/
def rstr (t : String) : Regex := rcat (t.data.map Regex.lit)

/-- `\s+` -/
def wsPlus : Regex := .plus .ws

/-- `\s*` -/
def wsStar : Regex := .star .ws

/-- The apostrophe character (U+0027), used by several source patterns. -/
def aposChar : Char := Char.ofNat 39

/-- The apostrophe as a one-character string. -/
def aposStr : String := String.mk [aposChar]

/-! ## `analyzer_contract.py` -/

/-- The four-way score block of the response contract. -/
structure ScoreBreakdown where
  positive : ℚ
  negative : ℚ
  neutral : ℚ
  compound : ℚ
deriving Repr, DecidableEq

/-- The `moderation` block the router attaches to every response. -/
structure ModerationBlock where
  flagged : Bool
  reason : Option String
  severity : String
deriving Repr, DecidableEq

/-- The contract-compliant response dict (`ANALYZER_RESPONSE_SCHEMA`).
The `moderation` key is absent until the router attaches it, modelled
as an `Option` that the analyzers leave at `none`. -/
structure Response where
  text : String
  sentiment : String
  emoji : String
  scores : ScoreBreakdown
  confidence : ℚ
  model : String
  emotions : List String
  reasoning : String
  cached : Bool
  error : Option String
  moderation : Option ModerationBlock
deriving Repr, DecidableEq

def MODEL_VADER : String := "vader"
def MODEL_HYBRID : String := "hybrid"
def MODEL_GPT : String := "gpt-4o-mini"

/-- `sentiment_to_emoji`: defaults to the neutral face for unknown values. -/
def sentimentToEmoji (sentiment : String) : String :=
  if sentiment = "positive" then "😊"
  else if sentiment = "negative" then "😞"
  else if sentiment = "neutral" then "😐"
  else if sentiment = "harmful" then "⚠️"
  else "😐"

/-- `derive_scores_from_compound`: clamp, split around 0.5, renormalize
to sum 1, round each component to 3 decimals.  The Python source has an
`if compound > 0` whose two branches are textually identical; the
branchless form below is the same function. -/
def deriveScoresFromCompound (compound : ℚ) : ScoreBreakdown :=
  let compound := max (-1 : ℚ) (min 1 compound)
  let positive := 1/2 + compound * (1/2)
  let negative := 1/2 - compound * (1/2)
  let neutral := 1 - |compound|
  let total := positive + negative + neutral
  { positive := round3 (positive / total)
    negative := round3 (negative / total)
    neutral := round3 (neutral / total)
    compound := round3 compound }

/-- `build_standard_response`.  `reasoning or ""` in the source is the
identity on strings (`""` stays `""`), so it is dropped here. -/
def buildStandardResponse (text sentiment : String) (scores : ScoreBreakdown)
    (confidence : ℚ) (model : String) (emotions : List String)
    (reasoning : String) (cached : Bool) (error : Option String) : Response :=
  { text := text
    sentiment := sentiment
    emoji := sentimentToEmoji sentiment
    scores := scores
    confidence := round3 confidence
    model := model
    emotions := emotions
    reasoning := reasoning
    cached := cached
    error := error
    moderation := none }

/-- `build_error_response`. -/
def buildErrorResponse (text model errorMessage : String) : Response :=
  buildStandardResponse text "neutral" (deriveScoresFromCompound 0) 0 model
    [] "Analysis unavailable due to error." false (some errorMessage)

/-! ## `content_moderator.py`

The `harmful_patterns` list, in source order.  Each entry is preceded by
the source regex.  The patterns are compiled with `re.IGNORECASE` but are
only ever run on already-lowercased text, so lowercase literals suffice. -/

/-- `ContentModerator.harmful_patterns`, in source order. -/
def harmfulPatterns : List Regex := [
  -- \bsuicide\b(?!\s+(prevention|hotline|awareness|help))
  rcat [.wordB, rstr "suicide", .wordB,
    .lookNeg (rcat [wsPlus,
      ralt [rstr "prevention", rstr "hotline", rstr "awareness", rstr "help"]])],
  -- \b(commit|committing|please commit|just commit|do commit)\s+suicide\b
  rcat [.wordB,
    ralt [rstr "commit", rstr "committing", rstr "please commit",
      rstr "just commit", rstr "do commit"],
    wsPlus, rstr "suicide", .wordB],
  -- \bsuicide\s+(please|now|today|tonight)\b
  rcat [.wordB, rstr "suicide", wsPlus,
    ralt [rstr "please", rstr "now", rstr "today", rstr "tonight"], .wordB],
  -- \b(kill|k[i1*]ll)\s+(your)?self\b
  rcat [.wordB,
    ralt [rstr "kill", rcat [.lit 'k', .cls ['i', '1', '*'], rstr "ll"]],
    wsPlus, .opt (rstr "your"), rstr "self", .wordB],
  -- \bkys\b
  rcat [.wordB, rstr "kys", .wordB],
  -- \b(hurt|harm)\s+(yourself|urself|yo?u?rself)\b
  rcat [.wordB, ralt [rstr "hurt", rstr "harm"], wsPlus,
    ralt [rstr "yourself", rstr "urself",
      rcat [.lit 'y', .opt (.lit 'o'), .opt (.lit 'u'), rstr "rself"]],
    .wordB],
  -- \bend\s+(your|yo?u?r)\s+(life|it all)\b
  rcat [.wordB, rstr "end", wsPlus,
    ralt [rstr "your", rcat [.lit 'y', .opt (.lit 'o'), .opt (.lit 'u'), .lit 'r']],
    wsPlus, ralt [rstr "life", rstr "it all"], .wordB],
  -- \btake\s+your\s+own\s+life\b
  rcat [.wordB, rstr "take", wsPlus, rstr "your", wsPlus, rstr "own",
    wsPlus, rstr "life", .wordB],
  -- \b(hang|shoot|drown)\s+yourself\b
  rcat [.wordB, ralt [rstr "hang", rstr "shoot", rstr "drown"], wsPlus,
    rstr "yourself", .wordB],
  -- \b(jump\s+off|slit\s+your|overdose\s+on)\b
  rcat [.wordB,
    ralt [rcat [rstr "jump", wsPlus, rstr "off"],
      rcat [rstr "slit", wsPlus, rstr "your"],
      rcat [rstr "overdose", wsPlus, rstr "on"]],
    .wordB],
  -- \bi\s+(will|gonna|going\s+to)\s+(k[i1*]ll|hurt|harm)\s+you\b
  rcat [.wordB, .lit 'i', wsPlus,
    ralt [rstr "will", rstr "gonna", rcat [rstr "going", wsPlus, rstr "to"]],
    wsPlus,
    ralt [rcat [.lit 'k', .cls ['i', '1', '*'], rstr "ll"], rstr "hurt", rstr "harm"],
    wsPlus, rstr "you", .wordB],
  -- \byou\s+(should|deserve\s+to)\s+die\b
  rcat [.wordB, rstr "you", wsPlus,
    ralt [rstr "should", rcat [rstr "deserve", wsPlus, rstr "to"]],
    wsPlus, rstr "die", .wordB],
  -- \bhope\s+you\s+die\b
  rcat [.wordB, rstr "hope", wsPlus, rstr "you", wsPlus, rstr "die", .wordB],
  -- \bwish\s+you\s+were\s+dead\b
  rcat [.wordB, rstr "wish", wsPlus, rstr "you", wsPlus, rstr "were",
    wsPlus, rstr "dead", .wordB],
  -- \bi\s+hate\s+you\b
  rcat [.wordB, .lit 'i', wsPlus, rstr "hate", wsPlus, rstr "you", .wordB],
  -- \byou(\s+are|\'re)\s+(worthless|useless|garbage|trash|waste of)\b
  rcat [.wordB, rstr "you",
    ralt [rcat [wsPlus, rstr "are"], rcat [.lit aposChar, rstr "re"]],
    wsPlus,
    ralt [rstr "worthless", rstr "useless", rstr "garbage", rstr "trash",
      rstr "waste of"],
    .wordB],
  -- \bwhy\s+don\'?t\s+you\s+(just\s+)?(k[i1*]ll|die|leave|end it)\b
  rcat [.wordB, rstr "why", wsPlus, rstr "don", .opt (.lit aposChar), .lit 't',
    wsPlus, rstr "you", wsPlus, .opt (rcat [rstr "just", wsPlus]),
    ralt [rcat [.lit 'k', .cls ['i', '1', '*'], rstr "ll"], rstr "die",
      rstr "leave", rstr "end it"],
    .wordB],
  -- \b(just do it|go ahead|nobody will miss you|no one cares)\b
  rcat [.wordB,
    ralt [rstr "just do it", rstr "go ahead", rstr "nobody will miss you",
      rstr "no one cares"],
    .wordB],
  -- \bn[i1!*]+gg?[ae3][rhz]*\b
  rcat [.wordB, .lit 'n', .plus (.cls ['i', '1', '!', '*']), .lit 'g',
    .opt (.lit 'g'), .cls ['a', 'e', '3'], .star (.cls ['r', 'h', 'z']), .wordB],
  -- \bch[i1!*]nk\b
  rcat [.wordB, rstr "ch", .cls ['i', '1', '!', '*'], rstr "nk", .wordB],
  -- \bsp[i1!*]c\b
  rcat [.wordB, rstr "sp", .cls ['i', '1', '!', '*'], .lit 'c', .wordB],
  -- \bwetb[a@]ck\b
  rcat [.wordB, rstr "wetb", .cls ['a', '@'], rstr "ck", .wordB],
  -- \bg[o0][o0]k\b
  rcat [.wordB, .lit 'g', .cls ['o', '0'], .cls ['o', '0'], .lit 'k', .wordB],
  -- \bk[i1!*]ke\b
  rcat [.wordB, .lit 'k', .cls ['i', '1', '!', '*'], rstr "ke", .wordB],
  -- \brag\s*head\b
  rcat [.wordB, rstr "rag", wsStar, rstr "head", .wordB],
  -- \bsand\s*n[i1!*]gg?[ae3]r\b
  rcat [.wordB, rstr "sand", wsStar, .lit 'n', .cls ['i', '1', '!', '*'],
    .lit 'g', .opt (.lit 'g'), .cls ['a', 'e', '3'], .lit 'r', .wordB],
  -- \bbeaner\b
  rcat [.wordB, rstr "beaner", .wordB],
  -- \bcamel\s*jockey\b
  rcat [.wordB, rstr "camel", wsStar, rstr "jockey", .wordB],
  -- \bf[a@4]gg?[o0]t\b
  rcat [.wordB, .lit 'f', .cls ['a', '@', '4'], .lit 'g', .opt (.lit 'g'),
    .cls ['o', '0'], .lit 't', .wordB],
  -- \bd[y1]ke\b
  rcat [.wordB, .lit 'd', .cls ['y', '1'], rstr "ke", .wordB],
  -- \btr[a@4]nny\b
  rcat [.wordB, rstr "tr", .cls ['a', '@', '4'], rstr "nny", .wordB],
  -- \bc[u*][n*]t\b
  rcat [.wordB, .lit 'c', .cls ['u', '*'], .cls ['n', '*'], .lit 't', .wordB],
  -- \bwh[o0]re\b
  rcat [.wordB, rstr "wh", .cls ['o', '0'], rstr "re", .wordB],
  -- \bsl[u*]t\b
  rcat [.wordB, rstr "sl", .cls ['u', '*'], .lit 't', .wordB],
  -- \bb[i1!*]tch\b
  rcat [.wordB, .lit 'b', .cls ['i', '1', '!', '*'], rstr "tch", .wordB],
  -- \bret[a@4]rd(ed)?\b
  rcat [.wordB, rstr "ret", .cls ['a', '@', '4'], rstr "rd", .opt (rstr "ed"),
    .wordB],
  -- \bm[o0]ng?[o0]l[o0]id\b
  rcat [.wordB, .lit 'm', .cls ['o', '0'], .lit 'n', .opt (.lit 'g'),
    .cls ['o', '0'], .lit 'l', .cls ['o', '0'], rstr "id", .wordB],
  -- \bcr[i1!*]pple\b
  rcat [.wordB, rstr "cr", .cls ['i', '1', '!', '*'], rstr "pple", .wordB]]

/-- Result of `ContentModerator.check_content`.  The source also returns
`matched_text` (the substring the regex engine matched); no claim
inspects it and reproducing Python's exact leftmost-greedy match extent
is not needed for any property, so that field is omitted here.
`matched_pattern` is returned as the index into `harmfulPatterns`
(the source returns the pattern's regex string at the same index). -/
structure ModerationResult where
  is_harmful : Bool
  matched_pattern : Option Nat
  severity : String
  reason : Option String
deriving Repr, DecidableEq

/-- ASCII lowercasing of one character (Python `str.lower`; the texts
this development evaluates on are ASCII). -/
def lowerChar (c : Char) : Char :=
  if 'A' ≤ c && c ≤ 'Z' then Char.ofNat (c.toNat + 32) else c

/-- Python `str.lower`, as a character map (kernel-reducible, unlike
`String.toLower` whose byte-position recursion does not reduce). -/
def pyLower (text : String) : String :=
  String.mk (text.data.map lowerChar)

/-- Python `str.strip()`: drop leading and trailing whitespace. -/
def pyStrip (text : String) : String :=
  String.mk
    (((text.data.dropWhile Char.isWhitespace).reverse.dropWhile
        Char.isWhitespace).reverse)

/-- The per-character effect of `re.sub(r'[^\w\s]', ' ', ·)`: every
character that is neither a word character nor whitespace becomes one
space (the pattern matches single characters, so this is a char map). -/
def stripPunct (c : Char) : Char :=
  if isWordChar c || c.isWhitespace then c else ' '

/-- The chained `.replace('*','i').replace('1','i').replace('@','a')
.replace('0','o')`.  The four source characters are distinct and none is
produced as an output, so the chain is a single character map. -/
def substituteCensor (c : Char) : Char :=
  if c = '*' then 'i'
  else if c = '1' then 'i'
  else if c = '@' then 'a'
  else if c = '0' then 'o'
  else c

/-- The normalization pipeline of `check_content`: lowercase, strip
punctuation to spaces, then apply the censorship substitutions —
in exactly this order, as in the source. -/
def normalizeText (text : String) : String :=
  String.mk (((pyLower text).data.map stripPunct).map substituteCensor)

/-- First pattern (by index) matching the text, if any. -/
def findHarmful : Nat → List Regex → String → Option Nat
  | _, [], _ => none
  | i, p :: rest, t =>
      if searchR p t then some i else findHarmful (i + 1) rest t

/-- `ContentModerator.check_content`. -/
def checkContent (text : String) : ModerationResult :=
  if text = "" then
    { is_harmful := false, matched_pattern := none,
      severity := "safe", reason := none }
  else
    match findHarmful 0 harmfulPatterns (normalizeText text) with
    | some i =>
        { is_harmful := true, matched_pattern := some i, severity := "high",
          reason := some "Contains harmful or threatening language" }
    | none =>
        { is_harmful := false, matched_pattern := none,
          severity := "safe", reason := none }

/-! ## `hybrid_analyzer.py` -/

/-- `HybridAnalyzer.pattern_boosts`, in source (insertion) order.  The
patterns are matched with `re.IGNORECASE` against lowercased text, so
the uppercase `I` in three source patterns is written `i` here. -/
def patternBoosts : List (Regex × ℚ) := [
  -- \bnot bad\b : 0.4
  (rcat [.wordB, rstr "not bad", .wordB], 2/5),
  -- \bnot terrible\b : 0.3
  (rcat [.wordB, rstr "not terrible", .wordB], 3/10),
  -- \bnot horrible\b : 0.3
  (rcat [.wordB, rstr "not horrible", .wordB], 3/10),
  -- \bdon\'t hate\b : 0.2
  (rcat [.wordB, rstr "don", .lit aposChar, rstr "t hate", .wordB], 1/5),
  -- \bdon\'t dislike\b : 0.3
  (rcat [.wordB, rstr "don", .lit aposChar, rstr "t dislike", .wordB], 3/10),
  -- \bnot the worst\b : 0.2
  (rcat [.wordB, rstr "not the worst", .wordB], 1/5),
  -- \bslaps?\b : 0.5
  (rcat [.wordB, rstr "slap", .opt (.lit 's'), .wordB], 1/2),
  -- \bbussin\b : 0.6
  (rcat [.wordB, rstr "bussin", .wordB], 3/5),
  -- \bfire\b(?!\s+sale) : 0.4
  (rcat [.wordB, rstr "fire", .wordB, .lookNeg (rcat [wsPlus, rstr "sale"])],
    2/5),
  -- \bhits different\b : 0.4
  (rcat [.wordB, rstr "hits different", .wordB], 2/5),
  -- \bno cap\b : 0.3
  (rcat [.wordB, rstr "no cap", .wordB], 3/10),
  -- \blit\b : 0.4
  (rcat [.wordB, rstr "lit", .wordB], 2/5),
  -- \bthanks for nothing\b : -0.7
  (rcat [.wordB, rstr "thanks for nothing", .wordB], -(7/10)),
  -- \boh great\b.*\b(delay|problem|issue)\b : -0.5
  (rcat [.wordB, rstr "oh great", .wordB, .star .dot, .wordB,
    ralt [rstr "delay", rstr "problem", rstr "issue"], .wordB], -(1/2)),
  -- \bjust what I needed\b(?!.*(good|great)) : -0.4
  (rcat [.wordB, rstr "just what i needed", .wordB,
    .lookNeg (rcat [.star .dot, ralt [rstr "good", rstr "great"]])], -(2/5)),
  -- \bit\'s fine\b : -0.2
  (rcat [.wordB, rstr "it", .lit aposChar, rstr "s fine", .wordB], -(1/5)),
  -- \bokay I guess\b : -0.3
  (rcat [.wordB, rstr "okay i guess", .wordB], -(3/10)),
  -- \bdecent I suppose\b : -0.2
  (rcat [.wordB, rstr "decent i suppose", .wordB], -(1/5))]

/-- The accumulation loop of `HybridAnalyzer._check_patterns`: running
boost total and match count over the pattern table. -/
def boostLoop (ps : List (Regex × ℚ)) (text : String) : ℚ × Nat :=
  match ps with
  | [] => (0, 0)
  | (p, b) :: rest =>
      let acc := boostLoop rest text
      if searchR p text then (b + acc.1, acc.2 + 1) else acc

/-- `HybridAnalyzer._check_patterns`: mean boost of the matched
patterns, `0.0` when none match. -/
def checkPatterns (text : String) : ℚ :=
  let acc := boostLoop patternBoosts text
  if 0 < acc.2 then acc.1 / acc.2 else 0

/-- Output of the third-party VADER `polarity_scores` primitive
(an opaque external engine; it enters the model as an oracle). -/
structure VaderScores where
  pos : ℚ
  neg : ℚ
  neu : ℚ
  compound : ℚ
deriving Repr, DecidableEq

/-- `HybridAnalyzer.analyze`, happy path: VADER 60% + TextBlob 40% +
pattern boost, clamped; breakdown inlined (same math as
`derive_scores_from_compound`); confidence = agreement × |combined|.
The `except` fallback branch (VADER-only with model `vader-fallback`)
is unreachable in this pure model — the exception sources are the
third-party TextBlob call — and no claim concerns it, so it is not
modelled. -/
def hybridAnalyze (vader : String → VaderScores) (blob : String → ℚ)
    (text : String) : Response :=
  let vaderCompound := (vader text).compound
  let textblobPolarity := blob text
  let patternBoost := checkPatterns (pyLower text)
  let combined :=
    max (-1 : ℚ)
      (min 1 (vaderCompound * (3/5) + textblobPolarity * (2/5) + patternBoost))
  let sentiment :=
    if combined ≥ 1/20 then "positive"
    else if combined ≤ -(1/20) then "negative"
    else "neutral"
  let positiveScore := 1/2 + combined * (1/2)
  let negativeScore := 1/2 - combined * (1/2)
  let neutralScore := 1 - |combined|
  let total := positiveScore + negativeScore + neutralScore
  let scores : ScoreBreakdown :=
    { positive := round3 (positiveScore / total)
      negative := round3 (negativeScore / total)
      neutral := round3 (neutralScore / total)
      compound := round3 combined }
  let agreement := 1 - |vaderCompound - textblobPolarity| / 2
  let confidence := agreement * |combined|
  buildStandardResponse text sentiment scores confidence MODEL_HYBRID [] ""
    false none

/-! ## `openai_analyzer.py` -/

/-- A successfully parsed JSON object from the remote model, with the
fields `OpenAIAnalyzer.analyze` reads via `dict.get` (each may be
absent; `.get` defaults apply).  A present-but-non-numeric
`compound_score` makes Python's `float()` raise, which the catch-all
turns into `build_error_response`; that case is covered by
`RemoteOutcome.exn`. -/
structure GptJson where
  sentiment : Option String
  confidence : Option ℚ
  compound : Option ℚ
  emotions : Option (List String)
  reasoning : Option String
deriving Repr, DecidableEq

/-- What one remote chat-completion interaction can yield: a parsed JSON
object, a non-JSON body (`json.JSONDecodeError` with message), or any
other exception (network / auth / rate limit, with message). -/
inductive RemoteOutcome where
  | ok (g : GptJson) : RemoteOutcome
  | badJson (msg : String) : RemoteOutcome
  | exn (msg : String) : RemoteOutcome
deriving Repr, DecidableEq

/-- Python `s.lower()` membership test used to coerce the sentiment. -/
def coerceSentiment (s : String) : String :=
  let s := pyLower s
  if s = "positive" || s = "negative" || s = "neutral" then s else "neutral"

/-- `OpenAIAnalyzer.analyze`: empty/blank short-circuit, then one remote
interaction whose outcome is the `RemoteOutcome` parameter.  Every
branch returns a contract response; nothing escapes. -/
def openaiAnalyze (outcome : RemoteOutcome) (text : String) : Response :=
  if pyStrip text = "" then
    buildStandardResponse text "neutral" (deriveScoresFromCompound 0) 0
      MODEL_GPT [] "Empty text provided." false none
  else
    match outcome with
    | .ok g =>
        let compound := g.compound.getD 0
        let scores := deriveScoresFromCompound compound
        let sentiment := coerceSentiment (g.sentiment.getD "neutral")
        buildStandardResponse text sentiment scores (g.confidence.getD 0)
          MODEL_GPT (g.emotions.getD []) (g.reasoning.getD "") false none
    | .badJson msg =>
        buildErrorResponse text MODEL_GPT ("JSON parse error: " ++ msg)
    | .exn msg => buildErrorResponse text MODEL_GPT msg

/-- `_make_cache_key`: md5 hex of the lowercased, stripped text.  The
hash is an opaque fingerprint whose only relevant property is equality
of normalized texts (no claim concerns md5 collisions), so it is
modelled as the normalized text itself. -/
def makeCacheKey (text : String) : String := pyStrip (pyLower text)

/-- State of the `functools.lru_cache(maxsize=200)` around
`_cached_analyze`, plus instrumentation.  `entries` is
most-recently-used first and — exactly as `lru_cache` does — is keyed
on the full argument tuple `(cache_key, text)`, not on `cache_key`
alone.  The stored value is the response (the source stores its JSON
serialization and parses it back, a faithful round-trip).  `hits` is
`cache_info().hits`; `remoteCalls` counts constructions of the remote
call (instrumentation for the no-remote-call properties, incremented
exactly when a cache miss reaches the non-empty-text branch). -/
structure CacheState where
  entries : List ((String × String) × Response)
  hits : Nat
  remoteCalls : Nat
deriving Repr, DecidableEq

/-- The empty cache of a fresh process. -/
def emptyCache : CacheState := { entries := [], hits := 0, remoteCalls := 0 }

/-- Association lookup on the `(cache_key, text)` tuple. -/
def findEntry (es : List ((String × String) × Response))
    (key : String × String) : Option Response :=
  match es with
  | [] => none
  | (k, r) :: rest => if k = key then some r else findEntry rest key

/-- `_cached_analyze` with the `lru_cache` behaviour made explicit:
hit → stored value, recency refreshed, `hits` incremented; miss →
compute `OpenAIAnalyzer().analyze(text)`, insert at the front, evict
past 200 entries. -/
def cachedAnalyze (remote : String → RemoteOutcome) (st : CacheState)
    (key text : String) : Response × CacheState :=
  match findEntry st.entries (key, text) with
  | some r =>
      (r, { st with
              entries := ((key, text), r) ::
                st.entries.filter (fun e => e.1 ≠ (key, text))
              hits := st.hits + 1 })
  | none =>
      let r := openaiAnalyze (remote text) text
      (r, { entries := (((key, text), r) :: st.entries).take 200
            hits := st.hits
            remoteCalls :=
              st.remoteCalls + (if pyStrip text = "" then 0 else 1) })

/-- `analyze_with_cache`: build the key, detect a hit from the
`cache_info().hits` delta, and overwrite the `cached` field. -/
def analyzeWithCache (remote : String → RemoteOutcome) (st : CacheState)
    (text : String) : Response × CacheState :=
  let cacheKey := makeCacheKey text
  let hitsBefore := st.hits
  let (result, st') := cachedAnalyze remote st cacheKey text
  ({ result with cached := decide (hitsBefore < st'.hits) }, st')

/-! ## `sentiment_analyzer.py` (the router) -/

/-- `VALID_MODELS`. -/
def validModels : List String := [ MODEL_VADER, MODEL_HYBRID, MODEL_GPT ]

/-- `SentimentAnalyzer._analyze_with_vader`: thresholds at ±0.05 on the
lexicon compound, confidence `round(abs(compound), 3)`. -/
def analyzeWithVader (vader : String → VaderScores) (text : String) :
    Response :=
  let scores := vader text
  let compound := scores.compound
  let sentiment :=
    if compound ≥ 1/20 then "positive"
    else if compound ≤ -(1/20) then "negative"
    else "neutral"
  buildStandardResponse text sentiment
    { positive := round3 scores.pos
      negative := round3 scores.neg
      neutral := round3 scores.neu
      compound := round3 compound }
    (round3 |compound|) MODEL_VADER [] "" false none

/-- Attach the late `moderation` key, as the router does after scoring
(or in the harmful short-circuit). -/
def withModeration (r : Response) (m : ModerationBlock) : Response :=
  { r with moderation := some m }

/-- `SentimentAnalyzer.analyze`, the router: normalize the model name
(unknown → vader), run moderation, short-circuit on harmful, otherwise
dispatch to gpt / hybrid / vader and attach the safe moderation block.
The three scoring engines are the oracle parameters; the cache state
threads through (only the gpt path touches it). -/
def routerAnalyze (vader : String → VaderScores) (blob : String → ℚ)
    (remote : String → RemoteOutcome) (st : CacheState)
    (text model : String) : Response × CacheState :=
  let model := if validModels.contains model then model else MODEL_VADER
  let moderation := checkContent text
  if moderation.is_harmful then
    (withModeration
      (buildStandardResponse text "harmful"
        (deriveScoresFromCompound (-(99/100))) 1 model []
        "Content flagged by moderation system." false none)
      { flagged := true, reason := moderation.reason,
        severity := moderation.severity }, st)
  else
    let rs :=
      if model = MODEL_GPT then analyzeWithCache remote st text
      else if model = MODEL_HYBRID then (hybridAnalyze vader blob text, st)
      else (analyzeWithVader vader text, st)
    (withModeration rs.1
      { flagged := false, reason := none, severity := "safe" }, rs.2)

/-! ## Helper lemmas -/

/-- `round3` fixes 3-decimal values; instances used below. -/
theorem round3_zero : round3 0 = 0 := by
  unfold round3
  rw [show (1000 : ℚ) * 0 = 0 by ring, round_zero]
  norm_num

theorem round3_one : round3 1 = 1 := by
  unfold round3
  rw [show (1000 : ℚ) * 1 = 1000 by ring]
  rw [round_eq]
  norm_num

/-- The harmful short-circuit score block:
`derive_scores_from_compound(-0.99)` evaluates to
`(0.005, 0.985, 0.01, -0.99)` — not to `(0, 1, 0, -0.99)`. -/
theorem derive_neg99 :
    deriveScoresFromCompound (-(99/100)) =
      { positive := 1/200, negative := 197/200,
        neutral := 1/100, compound := -(99/100) } := by
  unfold deriveScoresFromCompound round3
  norm_num [round_eq]
  norm_num [show |(99:ℚ)/100| = 99/100 from abs_of_nonneg (by norm_num)]

/-- The error score block: `derive_scores_from_compound(0.0)`. -/
theorem derive_zero :
    deriveScoresFromCompound 0 =
      { positive := 1/4, negative := 1/4, neutral := 1/2, compound := 0 } := by
  unfold deriveScoresFromCompound round3
  norm_num [round_eq]

/-- The inline positive/negative/neutral split of a compound `d` in
`[-1, 1]`, renormalized and rounded, sums to within `±0.001` of 1. -/
theorem breakdown_sum (d : ℚ) (h1 : -1 ≤ d) (h2 : d ≤ 1) :
    |round3 ((1/2 + d * (1/2)) /
        (1/2 + d * (1/2) + (1/2 - d * (1/2)) + (1 - |d|)))
      + round3 ((1/2 - d * (1/2)) /
        (1/2 + d * (1/2) + (1/2 - d * (1/2)) + (1 - |d|)))
      + round3 ((1 - |d|) /
        (1/2 + d * (1/2) + (1/2 - d * (1/2)) + (1 - |d|)))
      - 1| ≤ 1/1000 := by
  have habs : |d| ≤ 1 := abs_le.mpr ⟨h1, h2⟩
  have hne : 1/2 + d * (1/2) + (1/2 - d * (1/2)) + (1 - |d|) ≠ 0 := by
    have : (1 : ℚ) ≤ 1/2 + d * (1/2) + (1/2 - d * (1/2)) + (1 - |d|) := by
      have := abs_nonneg d
      linarith
    linarith
  apply round3_sum_near_one
  rw [div_add_div_same, div_add_div_same, div_eq_one_iff_eq hne]

/-- The clamp `max(-1.0, min(1.0, ·))` is idempotent. -/
theorem clamp_idem (c : ℚ) :
    max (-1 : ℚ) (min 1 (max (-1 : ℚ) (min 1 c))) = max (-1 : ℚ) (min 1 c) := by
  have h1 : (-1 : ℚ) ≤ max (-1 : ℚ) (min 1 c) := le_max_left _ _
  have h2 : max (-1 : ℚ) (min 1 c) ≤ 1 :=
    max_le (by norm_num) (min_le_left _ _)
  rw [min_eq_right h2, max_eq_right h1]

/-! ## C5 -/

/-- C5: for every compound in `[-1, 1]`, the breakdown produced by
`derive_scores_from_compound` — and by the identical derivation inlined
in the Blended (hybrid) Scorer — has `positive + negative + neutral`
within `±0.001` of `1.0` after each component is rounded to 3 decimals. -/
theorem scores_sum_near_one (c : ℚ) (hc1 : -1 ≤ c) (hc2 : c ≤ 1) :
    |(deriveScoresFromCompound c).positive
      + (deriveScoresFromCompound c).negative
      + (deriveScoresFromCompound c).neutral - 1| ≤ 1/1000 ∧
    ∀ (vader : String → VaderScores) (blob : String → ℚ) (text : String),
      |(hybridAnalyze vader blob text).scores.positive
        + (hybridAnalyze vader blob text).scores.negative
        + (hybridAnalyze vader blob text).scores.neutral - 1| ≤ 1/1000 := by
  constructor
  · have h1 : (-1 : ℚ) ≤ max (-1 : ℚ) (min 1 c) := le_max_left _ _
    have h2 : max (-1 : ℚ) (min 1 c) ≤ 1 :=
      max_le (by norm_num) (min_le_left _ _)
    simpa [deriveScoresFromCompound] using
      breakdown_sum (max (-1 : ℚ) (min 1 c)) h1 h2
  · intro vader blob text
    set d := max (-1 : ℚ)
      (min 1 ((vader text).compound * (3/5) + blob text * (2/5)
        + checkPatterns (pyLower text))) with hd
    have h1 : (-1 : ℚ) ≤ d := le_max_left _ _
    have h2 : d ≤ 1 := max_le (by norm_num) (min_le_left _ _)
    simpa [hybridAnalyze, buildStandardResponse, ← hd] using
      breakdown_sum d h1 h2

/-- Witness for C5 at the concrete compound `0.5`. -/
theorem scores_sum_near_one_witness :
    (-1 : ℚ) ≤ 1/2 ∧ (1/2 : ℚ) ≤ 1 ∧
    (|(deriveScoresFromCompound (1/2)).positive
      + (deriveScoresFromCompound (1/2)).negative
      + (deriveScoresFromCompound (1/2)).neutral - 1| ≤ 1/1000 ∧
    ∀ (vader : String → VaderScores) (blob : String → ℚ) (text : String),
      |(hybridAnalyze vader blob text).scores.positive
        + (hybridAnalyze vader blob text).scores.negative
        + (hybridAnalyze vader blob text).scores.neutral - 1| ≤ 1/1000) :=
  ⟨by norm_num, by norm_num,
    scores_sum_near_one (1/2) (by norm_num) (by norm_num)⟩

/-! ## C10 -/

/-- C10: `derive_scores_from_compound` is total on every rational input:
out-of-range compounds are first clamped to `[-1, 1]`, and the returned
`positive`, `negative`, `neutral` each lie in `[0, 1]` with the returned
`compound` in `[-1, 1]`. -/
theorem derive_total_bounded (c : ℚ) :
    deriveScoresFromCompound c
        = deriveScoresFromCompound (max (-1 : ℚ) (min 1 c)) ∧
    0 ≤ (deriveScoresFromCompound c).positive ∧
    (deriveScoresFromCompound c).positive ≤ 1 ∧
    0 ≤ (deriveScoresFromCompound c).negative ∧
    (deriveScoresFromCompound c).negative ≤ 1 ∧
    0 ≤ (deriveScoresFromCompound c).neutral ∧
    (deriveScoresFromCompound c).neutral ≤ 1 ∧
    -1 ≤ (deriveScoresFromCompound c).compound ∧
    (deriveScoresFromCompound c).compound ≤ 1 := by
  have h1 : (-1 : ℚ) ≤ max (-1 : ℚ) (min 1 c) := le_max_left _ _
  have h2 : max (-1 : ℚ) (min 1 c) ≤ 1 :=
    max_le (by norm_num) (min_le_left _ _)
  set d := max (-1 : ℚ) (min 1 c) with hd
  have habs : |d| ≤ 1 := abs_le.mpr ⟨h1, h2⟩
  have habs0 : 0 ≤ |d| := abs_nonneg d
  have htot : 1/2 + d * (1/2) + (1/2 - d * (1/2)) + (1 - |d|) = 2 - |d| := by
    ring
  have htpos : (0 : ℚ) < 2 - |d| := by linarith
  have hclamp : max (-1 : ℚ) (min 1 d) = d := by
    rw [hd]
    exact clamp_idem c
  simp only [deriveScoresFromCompound, ← hd, hclamp, htot]
  refine ⟨trivial, ?_, ?_, ?_, ?_, ?_, ?_, ?_, ?_⟩
  · exact (round3_mem_unit (div_nonneg (by linarith) (le_of_lt htpos)) (by
      rw [div_le_one htpos]; linarith)).1
  · exact (round3_mem_unit (div_nonneg (by linarith) (le_of_lt htpos)) (by
      rw [div_le_one htpos]; linarith)).2
  · exact (round3_mem_unit (div_nonneg (by linarith) (le_of_lt htpos)) (by
      rw [div_le_one htpos]; linarith)).1
  · exact (round3_mem_unit (div_nonneg (by linarith) (le_of_lt htpos)) (by
      rw [div_le_one htpos]; linarith)).2
  · exact (round3_mem_unit (div_nonneg (by linarith) (le_of_lt htpos)) (by
      rw [div_le_one htpos]; linarith)).1
  · exact (round3_mem_unit (div_nonneg (by linarith) (le_of_lt htpos)) (by
      rw [div_le_one htpos]; linarith)).2
  · exact (round3_mem_sym h1 h2).1
  · exact (round3_mem_sym h1 h2).2

/-- When `check_content` flags a text, the reason and severity it
reports are the fixed harmful ones. -/
theorem checkContent_flagged {text : String}
    (h : (checkContent text).is_harmful = true) :
    (checkContent text).reason
        = some "Contains harmful or threatening language" ∧
    (checkContent text).severity = "high" := by
  unfold checkContent at h ⊢
  by_cases ht : text = ""
  · simp [ht] at h
  · simp only [if_neg ht] at h ⊢
    cases hf : findHarmful 0 harmfulPatterns (normalizeText text) with
    | none => simp [hf] at h
    | some i => exact ⟨rfl, rfl⟩

/-- Concrete oracles for closed instances: a neutral lexicon engine, a
neutral polarity engine, and a remote endpoint that always fails. -/
def zeroVader : String → VaderScores :=
  fun _ => { pos := 0, neg := 0, neu := 1, compound := 0 }

def zeroBlob : String → ℚ := fun _ => 0

def downRemote : String → RemoteOutcome := fun _ => .exn "connection error"

/-! ## C1 -/

/-- C1: for every text the Moderation Filter flags and every requested
model, the Router returns `sentiment="harmful"`, `moderation.flagged=true`,
`scores.compound = -0.99`, `confidence = 1.0`, with the scorer-specific
fields fixed (`reasoning` is the canned moderation string, `emotions`
empty, `cached` false, `error` none); the response and the final cache
state are independent of all three scoring engines, and the cache state
is returned untouched — no scorer is invoked. -/
theorem moderation_short_circuit (vader : String → VaderScores)
    (blob : String → ℚ) (remote : String → RemoteOutcome) (st : CacheState)
    (text model : String)
    (h : (checkContent text).is_harmful = true) :
    (routerAnalyze vader blob remote st text model).1.sentiment = "harmful" ∧
    (routerAnalyze vader blob remote st text model).1.moderation =
      some { flagged := true,
             reason := some "Contains harmful or threatening language",
             severity := "high" } ∧
    (routerAnalyze vader blob remote st text model).1.scores.compound
        = -(99/100) ∧
    (routerAnalyze vader blob remote st text model).1.confidence = 1 ∧
    (routerAnalyze vader blob remote st text model).1.reasoning
        = "Content flagged by moderation system." ∧
    (routerAnalyze vader blob remote st text model).1.emotions = [] ∧
    (routerAnalyze vader blob remote st text model).1.cached = false ∧
    (routerAnalyze vader blob remote st text model).1.error = none ∧
    (∀ (vader2 : String → VaderScores) (blob2 : String → ℚ)
        (remote2 : String → RemoteOutcome),
      routerAnalyze vader2 blob2 remote2 st text model
          = routerAnalyze vader blob remote st text model) ∧
    (routerAnalyze vader blob remote st text model).2 = st := by
  obtain ⟨hr, hs⟩ := checkContent_flagged h
  simp [routerAnalyze, h, withModeration, buildStandardResponse,
    hr, hs, derive_neg99, round3_one]

/-- Witness for C1: `"kill yourself"` is flagged; instance with the gpt
model requested and concrete oracles. -/
theorem moderation_short_circuit_witness :
    (checkContent "kill yourself").is_harmful = true ∧
    ((routerAnalyze zeroVader zeroBlob downRemote emptyCache
        "kill yourself" MODEL_GPT).1.sentiment = "harmful" ∧
    (routerAnalyze zeroVader zeroBlob downRemote emptyCache
        "kill yourself" MODEL_GPT).1.moderation =
      some { flagged := true,
             reason := some "Contains harmful or threatening language",
             severity := "high" } ∧
    (routerAnalyze zeroVader zeroBlob downRemote emptyCache
        "kill yourself" MODEL_GPT).1.scores.compound = -(99/100) ∧
    (routerAnalyze zeroVader zeroBlob downRemote emptyCache
        "kill yourself" MODEL_GPT).1.confidence = 1 ∧
    (routerAnalyze zeroVader zeroBlob downRemote emptyCache
        "kill yourself" MODEL_GPT).1.reasoning
        = "Content flagged by moderation system." ∧
    (routerAnalyze zeroVader zeroBlob downRemote emptyCache
        "kill yourself" MODEL_GPT).1.emotions = [] ∧
    (routerAnalyze zeroVader zeroBlob downRemote emptyCache
        "kill yourself" MODEL_GPT).1.cached = false ∧
    (routerAnalyze zeroVader zeroBlob downRemote emptyCache
        "kill yourself" MODEL_GPT).1.error = none ∧
    (∀ (vader2 : String → VaderScores) (blob2 : String → ℚ)
        (remote2 : String → RemoteOutcome),
      routerAnalyze vader2 blob2 remote2 emptyCache "kill yourself" MODEL_GPT
          = routerAnalyze zeroVader zeroBlob downRemote emptyCache
              "kill yourself" MODEL_GPT) ∧
    (routerAnalyze zeroVader zeroBlob downRemote emptyCache
        "kill yourself" MODEL_GPT).2 = emptyCache) :=
  ⟨by decide,
    moderation_short_circuit zeroVader zeroBlob downRemote emptyCache
      "kill yourself" MODEL_GPT (by decide)⟩

/-! ## C2 -/

/-- C2 counterexample: on the flagged text `"kill yourself"` the router's
score block is NOT the punitive profile `(0, 1, 0, -0.99)` the claim
states — the code derives it from compound `-0.99` instead. -/
theorem harmful_profile_counterexample :
    (checkContent "kill yourself").is_harmful = true ∧
    (routerAnalyze zeroVader zeroBlob downRemote emptyCache
        "kill yourself" MODEL_VADER).1.scores ≠
      { positive := 0, negative := 1, neutral := 0, compound := -(99/100) } := by
  have h : (checkContent "kill yourself").is_harmful = true := by decide
  refine ⟨h, ?_⟩
  have hs : (routerAnalyze zeroVader zeroBlob downRemote emptyCache
      "kill yourself" MODEL_VADER).1.scores
      = deriveScoresFromCompound (-(99/100)) := by
    simp only [routerAnalyze, h, if_true, withModeration,
      buildStandardResponse]
  rw [hs, derive_neg99]
  intro hcon
  have := congrArg ScoreBreakdown.positive hcon
  norm_num at this

/-- C2 (amended): when moderation flags a text, the score block of the
returned response is `derive_scores_from_compound(-0.99)`, i.e.
`positive = 0.005`, `negative = 0.985`, `neutral = 0.01`,
`compound = -0.99` — a near-punitive profile, not exactly `(0, 1, 0)`. -/
theorem harmful_scores_profile (vader : String → VaderScores)
    (blob : String → ℚ) (remote : String → RemoteOutcome) (st : CacheState)
    (text model : String)
    (h : (checkContent text).is_harmful = true) :
    (routerAnalyze vader blob remote st text model).1.scores =
      { positive := 1/200, negative := 197/200,
        neutral := 1/100, compound := -(99/100) } := by
  have hs : (routerAnalyze vader blob remote st text model).1.scores
      = deriveScoresFromCompound (-(99/100)) := by
    simp only [routerAnalyze, h, if_true, withModeration,
      buildStandardResponse]
  rw [hs, derive_neg99]

/-- Witness for C2 (amended) at the flagged text `"hope you die"`. -/
theorem harmful_scores_profile_witness :
    (checkContent "hope you die").is_harmful = true ∧
    (routerAnalyze zeroVader zeroBlob downRemote emptyCache
        "hope you die" MODEL_HYBRID).1.scores =
      { positive := 1/200, negative := 197/200,
        neutral := 1/100, compound := -(99/100) } :=
  ⟨by decide,
    harmful_scores_profile zeroVader zeroBlob downRemote emptyCache
      "hope you die" MODEL_HYBRID (by decide)⟩

/-! ## C6 -/

/-- C6: every failure of the Remote-Model Scorer — a malformed
(non-JSON) remote body or any exception (network / auth / rate limit)
— yields exactly `build_error_response`: `sentiment="neutral"`, scores
derived from compound `0.0`, `confidence=0.0`, `error` set to the
failure message.  (`openaiAnalyze` is a total Lean function, so no
exception can propagate to the caller by construction.) -/
theorem remote_failure_to_error (text msg : String)
    (h : pyStrip text ≠ "") :
    openaiAnalyze (.badJson msg) text
        = buildErrorResponse text MODEL_GPT ("JSON parse error: " ++ msg) ∧
    openaiAnalyze (.exn msg) text = buildErrorResponse text MODEL_GPT msg ∧
    (openaiAnalyze (.exn msg) text).sentiment = "neutral" ∧
    (openaiAnalyze (.exn msg) text).scores = deriveScoresFromCompound 0 ∧
    (openaiAnalyze (.exn msg) text).confidence = 0 ∧
    (openaiAnalyze (.exn msg) text).error = some msg ∧
    (openaiAnalyze (.badJson msg) text).error
        = some ("JSON parse error: " ++ msg) := by
  simp [openaiAnalyze, h, buildErrorResponse, buildStandardResponse,
    round3_zero]

/-- Witness for C6 at text `"hello"` and message `"rate limit"`. -/
theorem remote_failure_to_error_witness :
    pyStrip "hello" ≠ "" ∧
    (openaiAnalyze (.badJson "rate limit") "hello"
        = buildErrorResponse "hello" MODEL_GPT
            ("JSON parse error: " ++ "rate limit") ∧
    openaiAnalyze (.exn "rate limit") "hello"
        = buildErrorResponse "hello" MODEL_GPT "rate limit" ∧
    (openaiAnalyze (.exn "rate limit") "hello").sentiment = "neutral" ∧
    (openaiAnalyze (.exn "rate limit") "hello").scores
        = deriveScoresFromCompound 0 ∧
    (openaiAnalyze (.exn "rate limit") "hello").confidence = 0 ∧
    (openaiAnalyze (.exn "rate limit") "hello").error = some "rate limit" ∧
    (openaiAnalyze (.badJson "rate limit") "hello").error
        = some ("JSON parse error: " ++ "rate limit")) :=
  ⟨by decide, remote_failure_to_error "hello" "rate limit" (by decide)⟩

/-! ## C7 -/

/-- C7: on an unflagged text, the Router's vader (Lexicon) path labels
sentiment from the lexicon compound by the fixed ±0.05 thresholds, and
its confidence is `|compound|` rounded to 3 decimals. -/
theorem vader_path_thresholds (vader : String → VaderScores)
    (blob : String → ℚ) (remote : String → RemoteOutcome) (st : CacheState)
    (text : String) (h : (checkContent text).is_harmful = false) :
    (routerAnalyze vader blob remote st text MODEL_VADER).1.sentiment
        = (if (vader text).compound ≥ 1/20 then "positive"
           else if (vader text).compound ≤ -(1/20) then "negative"
           else "neutral") ∧
    (routerAnalyze vader blob remote st text MODEL_VADER).1.confidence
        = round3 |(vader text).compound| := by
  simp [routerAnalyze, h, withModeration, analyzeWithVader,
    buildStandardResponse, round3_idem, validModels, MODEL_VADER,
    MODEL_HYBRID, MODEL_GPT]

/-- Concrete lexicon oracle for the C7 witness. -/
def demoVader : String → VaderScores :=
  fun _ => { pos := 3/5, neg := 1/10, neu := 3/10, compound := 7/10 }

/-- Witness for C7 at the unflagged text `"good day"`. -/
theorem vader_path_thresholds_witness :
    (checkContent "good day").is_harmful = false ∧
    ((routerAnalyze demoVader zeroBlob downRemote emptyCache
        "good day" MODEL_VADER).1.sentiment
        = (if (demoVader "good day").compound ≥ 1/20 then "positive"
           else if (demoVader "good day").compound ≤ -(1/20) then "negative"
           else "neutral") ∧
    (routerAnalyze demoVader zeroBlob downRemote emptyCache
        "good day" MODEL_VADER).1.confidence
        = round3 |(demoVader "good day").compound|) :=
  ⟨by decide,
    vader_path_thresholds demoVader zeroBlob downRemote emptyCache
      "good day" (by decide)⟩

/-! ## C8 -/

/-- C8: divergence at the failing input `"k*ll yourself"`.  The
punctuation-stripping step runs before the censorship substitutions, so
`*` (and `@`) are already spaces when `replace('*','i')` runs:
`"k*ll yourself"` normalizes to `"k ll yourself"` and is NOT flagged,
although its de-censored form `"kill yourself"` is flagged.  The
digit substitutions still work: `"k1ll yourself"` normalizes to
`"kill yourself"` and IS flagged. -/
theorem censored_phrase_divergence :
    normalizeText "k*ll yourself" = "k ll yourself" ∧
    (checkContent "k*ll yourself").is_harmful = false ∧
    (checkContent "kill yourself").is_harmful = true ∧
    normalizeText "k1ll yourself" = "kill yourself" ∧
    (checkContent "k1ll yourself").is_harmful = true := by
  refine ⟨by decide, by decide, by decide, by decide, by decide⟩

/-! ## C9 -/

/-- The boost values of the patterns that match a text, in table order. -/
def matchedBoosts (text : String) : List ℚ :=
  (patternBoosts.filter (fun pb => searchR pb.1 text)).map Prod.snd

/-- The `_check_patterns` accumulation loop computes the sum and the
count of the matched boosts. -/
theorem boostLoop_eq (ps : List (Regex × ℚ)) (text : String) :
    boostLoop ps text =
      (((ps.filter (fun pb => searchR pb.1 text)).map Prod.snd).sum,
       ((ps.filter (fun pb => searchR pb.1 text)).map Prod.snd).length) := by
  induction ps with
  | nil => rfl
  | cons p rest ih =>
      obtain ⟨r, b⟩ := p
      by_cases hm : searchR r text
      · simp [boostLoop, ih, hm, List.filter_cons]
      · simp [boostLoop, ih, hm, List.filter_cons]

/-- C9: in the Blended Scorer, when at least one phrase pattern matches
the text the applied boost is the arithmetic mean of all matched boost
values (not their sum), and the boost is `0.0` when no pattern
matches. -/
theorem pattern_boost_mean (text : String) :
    ((matchedBoosts text).length = 0 → checkPatterns text = 0) ∧
    (0 < (matchedBoosts text).length →
      checkPatterns text
        = (matchedBoosts text).sum / ((matchedBoosts text).length : ℚ)) := by
  unfold checkPatterns matchedBoosts
  rw [boostLoop_eq]
  constructor
  · intro h0
    simp [h0]
  · intro hpos
    rw [if_pos hpos]

/-- Witness for C9: `"not bad"` matches exactly one pattern. -/
theorem pattern_boost_mean_witness :
    0 < (matchedBoosts "not bad").length ∧
    checkPatterns "not bad"
      = (matchedBoosts "not bad").sum / ((matchedBoosts "not bad").length : ℚ) :=
  ⟨by decide, (pattern_boost_mean "not bad").2 (by decide)⟩

/-! ## C3 -/

/-- A remote oracle that always answers with a fixed well-formed JSON
object (used for closed cache scenarios). -/
def okRemote : String → RemoteOutcome := fun _ =>
  .ok { sentiment := some "positive", confidence := some (9/10),
        compound := some (4/5), emotions := some ["joy"],
        reasoning := some "Expresses love." }

/-- C3: divergence at the failing input pair `"I love this!"` /
`"  i love this!  "`.  Both texts produce the same normalized cache key
(`_make_cache_key` agrees on them), but `_cached_analyze` is memoized on
the argument tuple `(cache_key, text)` — the raw text included — so the
second call is a cache miss: it reports `cached=false` and performs a
second remote call, contradicting the claim (and the source's own
docstring) that the two share one cache entry. -/
theorem cache_normalization_divergence :
    makeCacheKey "I love this!" = makeCacheKey "  i love this!  " ∧
    (analyzeWithCache okRemote
        (analyzeWithCache okRemote emptyCache "I love this!").2
        "  i love this!  ").1.cached = false ∧
    (analyzeWithCache okRemote
        (analyzeWithCache okRemote emptyCache "I love this!").2
        "  i love this!  ").2.remoteCalls = 2 := by
  refine ⟨by decide, by decide, by decide⟩

/-! ## C4 -/

/-- C4: two sequential Remote-Model calls with the identical text,
starting from the fresh (empty) cache: both calls return identical
`scores`, `sentiment`, `emotions` and `reasoning`; the first call
reports `cached=false`, the second reports `cached=true` and performs
no remote call (the remote-call count does not change). -/
theorem cache_idempotence (remote : String → RemoteOutcome)
    (text : String) :
    (analyzeWithCache remote
        (analyzeWithCache remote emptyCache text).2 text).1.scores
      = (analyzeWithCache remote emptyCache text).1.scores ∧
    (analyzeWithCache remote
        (analyzeWithCache remote emptyCache text).2 text).1.sentiment
      = (analyzeWithCache remote emptyCache text).1.sentiment ∧
    (analyzeWithCache remote
        (analyzeWithCache remote emptyCache text).2 text).1.emotions
      = (analyzeWithCache remote emptyCache text).1.emotions ∧
    (analyzeWithCache remote
        (analyzeWithCache remote emptyCache text).2 text).1.reasoning
      = (analyzeWithCache remote emptyCache text).1.reasoning ∧
    (analyzeWithCache remote emptyCache text).1.cached = false ∧
    (analyzeWithCache remote
        (analyzeWithCache remote emptyCache text).2 text).1.cached = true ∧
    (analyzeWithCache remote
        (analyzeWithCache remote emptyCache text).2 text).2.remoteCalls
      = (analyzeWithCache remote emptyCache text).2.remoteCalls := by
  simp [analyzeWithCache, cachedAnalyze, findEntry, emptyCache]

end SentimentDashboard
